import Mathlib

/-!
Verification of the `version_exporter` probe service (`src/main.go`).

The development shallowly embeds the Go program:

* the Masterminds `semver` v1 library calls used by the program
  (`semver.NewVersion`, `Version.GreaterThan` / `Version.Compare`,
  `Version.Prerelease`) are translated from that library's source
  (regex-shaped parser, segment-wise comparison, prerelease ordering);
* `pkg/errors.Wrap` is translated faithfully, in particular
  `errors.Wrap(nil, msg) == nil`;
* `findReleases` is modelled as a function of the upstream HTTP exchange:
  the network transport result, the status code, and the result of JSON
  decoding of the body are inputs (the HTTP client and the JSON decoder
  themselves are external infrastructure);
* `probeHandler` is a pure function from the query parameters, the upstream
  exchange, the measured elapsed time and the prior metric-register values
  to the response and the new metric values.  Go `float64` gauge values are
  modelled as `Rat` (every value the program stores in them is 0, 1, an
  incremented counter, or a duration, all exactly representable).  Three
  observation flags (`durationSet`, `upToDateSet`, `fetchInvoked`) record
  which effects the handler performed on a given run.
-/

deriving instance DecidableEq for Except

/-- Character class `[0-9]` of the semver regex. -/
def isDigitChar (c : Char) : Bool := '0' ≤ c && c ≤ '9'

/-- Character class `[0-9A-Za-z-]` of the semver regex (prerelease and
build-metadata identifiers). -/
def isIdentChar (c : Char) : Bool :=
  isDigitChar c || ('A' ≤ c && c ≤ 'Z') || ('a' ≤ c && c ≤ 'z') || c = '-'

/-- Numeric value of a (non-empty) digit string, as `strconv.ParseInt`
computes it before its range check. -/
def natOfDigits (ds : List Char) : Nat :=
  ds.foldl (fun n c => n * 10 + (c.toNat - 48)) 0

/-- `strings.Split` on a single-character separator (Go semantics:
splitting the empty string yields `[""]`, a trailing separator yields a
trailing empty part). -/
def splitOnChar (sep : Char) : List Char → List (List Char)
  | [] => [[]]
  | c :: rest =>
    let r := splitOnChar sep rest
    if c = sep then [] :: r
    else
      match r with
      | [] => [[c]]
      | h :: t => (c :: h) :: t

/-- `math.MaxInt64`: `strconv.ParseInt(_, 10, 64)` rejects anything larger. -/
def maxInt64 : Nat := 9223372036854775807

/-- `strconv.ParseInt(s, 10, 64)`: optional sign, non-empty digits,
an int64 range check.  `none` models a non-nil error. -/
def parseInt64 (s : List Char) : Option Int :=
  match s with
  | [] => none
  | cs =>
    let signed : Bool × List Char :=
      match cs with
      | '+' :: rest => (false, rest)
      | '-' :: rest => (true, rest)
      | rest => (false, rest)
    let neg := signed.1
    let ds := signed.2
    if ds.isEmpty || !ds.all isDigitChar then none
    else
      let n := natOfDigits ds
      if neg then
        if n ≤ maxInt64 + 1 then some (-(n : Int)) else none
      else
        if n ≤ maxInt64 then some (n : Int) else none

/-- A parsed `semver.Version` (Masterminds v1): numeric segments, the raw
prerelease and build-metadata strings, and the original input. -/
structure SemVersion where
  major : Nat
  minor : Nat
  patch : Nat
  pre : String
  metadata : String
  original : String
deriving Repr, DecidableEq

/-- One optional `(\.[0-9]+)?` segment of the semver regex: an input
starting with `.` must continue with at least one digit (otherwise the
whole match fails); any other input leaves the segment absent. -/
def parseNumPart : List Char → Option (Option (List Char) × List Char)
  | '.' :: rest =>
    let ds := rest.takeWhile isDigitChar
    if ds.isEmpty then none else some (some ds, rest.dropWhile isDigitChar)
  | cs => some (none, cs)

/-- `ident(.ident)*`: every dot-separated part is non-empty and drawn from
`[0-9A-Za-z-]`. -/
def validIdents (cs : List Char) : Bool :=
  (splitOnChar '.' cs).all (fun part => !part.isEmpty && part.all isIdentChar)

/-- The `(-pre)?(+meta)?` tail of the semver regex.  Returns the prerelease
and metadata character lists on a match. -/
def parsePreMeta : List Char → Option (List Char × List Char)
  | [] => some ([], [])
  | '-' :: rest =>
    (match splitOnChar '+' rest with
     | [p] => if validIdents p then some (p, []) else none
     | [p, m] => if validIdents p && validIdents m then some (p, m) else none
     | _ => none)
  | '+' :: rest => if validIdents rest then some ([], rest) else none
  | _ => none

/-- `semver.ErrInvalidSemVer.Error()`. -/
def errInvalidSemVer : String := "Invalid Semantic Version"

/-- Error text produced when a numeric segment overflows int64
(`fmt.Errorf("Error parsing version segment: %s", err)` around the
`strconv.ParseInt` range error). -/
def rangeErr (s : String) : String :=
  "Error parsing version segment: strconv.ParseInt: parsing \"" ++ s ++
    "\": value out of range"

/-- `semver.NewVersion` (Masterminds v1): match the anchored regex
`v?([0-9]+)(\.[0-9]+)?(\.[0-9]+)?(-ids)?(\+ids)?`, absent minor/patch
default to 0, numeric segments go through `strconv.ParseInt(_, 10, 64)`.
`Except.error` carries the Go error's message. -/
def newVersion (s : String) : Except String SemVersion :=
  let cs0 := s.data
  let cs := match cs0 with
    | 'v' :: rest => rest
    | _ => cs0
  let ds1 := cs.takeWhile isDigitChar
  let rest1 := cs.dropWhile isDigitChar
  if ds1.isEmpty then .error errInvalidSemVer
  else
    match parseNumPart rest1 with
    | none => .error errInvalidSemVer
    | some (minorDs, rest2) =>
      match parseNumPart rest2 with
      | none => .error errInvalidSemVer
      | some (patchDs, rest3) =>
        match parsePreMeta rest3 with
        | none => .error errInvalidSemVer
        | some (preCs, metaCs) =>
          if natOfDigits ds1 > maxInt64 then .error (rangeErr (String.mk ds1))
          else
            match minorDs with
            | some mds =>
              if natOfDigits mds > maxInt64 then .error (rangeErr (String.mk mds))
              else
                match patchDs with
                | some pds =>
                  if natOfDigits pds > maxInt64 then .error (rangeErr (String.mk pds))
                  else .ok ⟨natOfDigits ds1, natOfDigits mds, natOfDigits pds,
                            String.mk preCs, String.mk metaCs, s⟩
                | none => .ok ⟨natOfDigits ds1, natOfDigits mds, 0,
                               String.mk preCs, String.mk metaCs, s⟩
            | none =>
              match patchDs with
              | some pds =>
                if natOfDigits pds > maxInt64 then .error (rangeErr (String.mk pds))
                else .ok ⟨natOfDigits ds1, 0, natOfDigits pds,
                          String.mk preCs, String.mk metaCs, s⟩
              | none => .ok ⟨natOfDigits ds1, 0, 0,
                             String.mk preCs, String.mk metaCs, s⟩

/-- Go string comparison `s > o` (lexicographic over bytes; the identifier
charset is ASCII, where byte order and code-point order agree). -/
def charListLt : List Char → List Char → Bool
  | [], [] => false
  | [], _ :: _ => true
  | _ :: _, [] => false
  | a :: as, b :: bs =>
    if a.toNat < b.toNat then true
    else if b.toNat < a.toNat then false
    else charListLt as bs

/-- `comparePrePart` of Masterminds semver: compare one dot-separated
prerelease identifier pair (empty sorts above non-empty at this level,
numeric below alphanumeric, numerics numerically, otherwise Go string
order). -/
def comparePrePart (s o : List Char) : Int :=
  if s = o then 0
  else if s = [] then (if o ≠ [] then -1 else 1)
  else if o = [] then (if s ≠ [] then 1 else -1)
  else
    match parseInt64 o, parseInt64 s with
    | none, none => if charListLt o s then 1 else -1
    | none, some _ => -1
    | some _, none => 1
    | some oi, some si => if si > oi then 1 else -1

/-- The part-by-part loop of `comparePrerelease`, the shorter side padded
with empty identifiers. -/
def comparePrereleaseParts : List (List Char) → List (List Char) → Int
  | [], [] => 0
  | [], o :: os =>
    let d := comparePrePart [] o
    if d ≠ 0 then d else comparePrereleaseParts [] os
  | v :: vs, [] =>
    let d := comparePrePart v []
    if d ≠ 0 then d else comparePrereleaseParts vs []
  | v :: vs, o :: os =>
    let d := comparePrePart v o
    if d ≠ 0 then d else comparePrereleaseParts vs os

/-- `comparePrerelease`: split both prerelease strings on `.` and compare
part by part. -/
def comparePrerelease (v o : String) : Int :=
  comparePrereleaseParts (splitOnChar '.' v.data) (splitOnChar '.' o.data)

/-- `compareSegment`: three-way comparison of one numeric segment. -/
def compareSegment (a b : Nat) : Int :=
  if a < b then -1 else if b < a then 1 else 0

/-- `Version.Compare` (build metadata ignored; an empty prerelease sorts
above any non-empty one). -/
def SemVersion.compare (v o : SemVersion) : Int :=
  let dmaj := compareSegment v.major o.major
  if dmaj ≠ 0 then dmaj
  else
    let dmin := compareSegment v.minor o.minor
    if dmin ≠ 0 then dmin
    else
      let dpat := compareSegment v.patch o.patch
      if dpat ≠ 0 then dpat
      else
        if v.pre = "" && o.pre = "" then 0
        else if v.pre = "" then 1
        else if o.pre = "" then -1
        else comparePrerelease v.pre o.pre

/-- `Version.GreaterThan`. -/
def SemVersion.greaterThan (v o : SemVersion) : Bool :=
  decide (SemVersion.compare v o > 0)

/-- `boolToFloat` from `src/main.go` (float64 values modelled as `Rat`). -/
def boolToFloat (b : Bool) : Rat := if b then 1 else 0

/-- The `Release` record decoded from the GitHub API
(`tag_name`, `draft`, `prerelease`, `published_at`). -/
structure Release where
  tagName : String
  draft : Bool
  prerelease : Bool
  publishedAt : Int
deriving Repr, DecidableEq

/-- The upstream HTTP exchange as `findReleases` observes it once
`http.DefaultClient.Do` has succeeded: the status code and the outcome of
JSON-decoding the body into `[]Release`. -/
structure HttpResponse where
  status : Nat
  body : Except String (List Release)
deriving Repr, DecidableEq

/-- `errors.Wrap` from `pkg/errors`: wrapping `nil` yields `nil`; otherwise
the wrapped error's message is `msg ++ ": " ++ cause`. -/
def errorsWrap : Option String → String → Option String
  | none, _ => none
  | some cause, msg => some (msg ++ ": " ++ cause)

/-- `findReleases` from `src/main.go`, as a function of the upstream
exchange (`Except.error` = transport failure of `Do`).  Note the non-200
branch calls `errors.Wrap` on the `err` of the successful `Do`, which is
`nil` there. -/
def findReleases (upstream : Except String HttpResponse) :
    List Release × Option String :=
  match upstream with
  | .error e => ([], errorsWrap (some e) "failed to get repository releases")
  | .ok resp =>
    if resp.status ≠ 200 then
      ([], errorsWrap none "github responded a non-200 status code")
    else
      match resp.body with
      | .error e => ([], errorsWrap (some e) "failed to parse the response body")
      | .ok rels => (rels, none)

/-- The scan loop of `findLatest`: skip draft/prerelease-flagged releases,
skip (and log) releases whose tag fails to parse, skip parsed versions with
a non-empty prerelease component, return the first survivor.  The second
component collects the messages logged by the parse-failure branch. -/
def scanReleases : List Release → Option SemVersion × List String
  | [] => (none, [])
  | r :: rest =>
    if r.draft || r.prerelease then scanReleases rest
    else
      match newVersion r.tagName with
      | .error _ =>
        let res := scanReleases rest
        (res.1, ("failed to parse " ++ r.tagName) :: res.2)
      | .ok version =>
        if version.pre ≠ "" then scanReleases rest
        else (some version, [])

/-- `findLatest` from `src/main.go`: fetch, propagate a fetch error,
otherwise scan.  Result: `((version?, error?), logged messages)`, matching
the Go `(*semver.Version, error)` pair. -/
def findLatest (upstream : Except String HttpResponse) :
    (Option SemVersion × Option String) × List String :=
  let fetched := findReleases upstream
  match fetched.2 with
  | some e => ((none, some e), [])
  | none =>
    let scanned := scanReleases fetched.1
    ((scanned.1, none), scanned.2)

/-- The three metric registers the probe touches. -/
structure Metrics where
  upToDate : Rat
  probeDuration : Rat
  probeErrors : Rat
deriving Repr, DecidableEq

/-- A probe response body: either the text written by `http.Error` (the
message, to which `http.Error` appends a newline) or the rendered metrics
exposition of the per-request registry (rendering format out of scope). -/
inductive ResponseBody where
  | errorText (msg : String)
  | exposition (m : Metrics)
deriving Repr, DecidableEq

/-- An HTTP response of the probe endpoint. -/
structure ProbeResponse where
  status : Nat
  body : ResponseBody
deriving Repr, DecidableEq

/-- Everything one run of `probeHandler` produces: the response, the new
metric values, and which effects happened (`durationSet` /&nbsp;`upToDateSet`:
the corresponding gauge was written; `fetchInvoked`: the outbound release
fetch was issued). -/
structure ProbeOutcome where
  resp : ProbeResponse
  metrics : Metrics
  durationSet : Bool
  upToDateSet : Bool
  fetchInvoked : Bool
deriving Repr, DecidableEq

/-- `probeHandler` from `src/main.go`.  `repo`/`tag` are the query
parameters (`Query().Get` returns `""` for a missing parameter), `upstream`
the exchange `findReleases` would observe, `elapsed` the measured
`time.Since(start).Seconds()`, `m` the metric registers on entry. -/
def probeHandler (repo tag : String) (upstream : Except String HttpResponse)
    (elapsed : Rat) (m : Metrics) : ProbeOutcome :=
  if repo = "" then
    ⟨⟨400, .errorText "repo parameter is missing"⟩,
      { m with probeErrors := m.probeErrors + 1 }, false, false, false⟩
  else if tag = "" then
    ⟨⟨400, .errorText "tag parameter is missing"⟩,
      { m with probeErrors := m.probeErrors + 1 }, false, false, false⟩
  else
    match newVersion tag with
    | .error e =>
      ⟨⟨400, .errorText e⟩,
        { m with probeErrors := m.probeErrors + 1 }, false, false, false⟩
    | .ok currentVersion =>
      match (findLatest upstream).1 with
      | (_, some e) =>
        ⟨⟨400, .errorText e⟩,
          { m with probeErrors := m.probeErrors + 1 }, false, false, true⟩
      | (verOpt, none) =>
        let newUp : Rat :=
          match verOpt with
          | none => 1
          | some v => boolToFloat (! SemVersion.greaterThan v currentVersion)
        let m2 : Metrics :=
          { m with upToDate := newUp, probeDuration := elapsed }
        ⟨⟨200, .exposition m2⟩, m2, true, true, true⟩

/-- Sanity: tags with a `v` prefix parse; a non-version string yields
`ErrInvalidSemVer`; a prerelease tag keeps its prerelease component. -/
theorem newVersion_sanity :
    newVersion "v2.1.0" = .ok ⟨2, 1, 0, "", "", "v2.1.0"⟩ ∧
    newVersion "not-a-version" = .error "Invalid Semantic Version" ∧
    newVersion "2.0.0-beta.1" = .ok ⟨2, 0, 0, "beta.1", "", "2.0.0-beta.1"⟩ := by
  decide

/-- Sanity: the comparison orders 2.1.0 above 2.0.0, is irreflexive as
strict order, and orders a release above its prerelease. -/
theorem greaterThan_sanity :
    SemVersion.greaterThan ⟨2, 1, 0, "", "", ""⟩ ⟨2, 0, 0, "", "", ""⟩ = true ∧
    SemVersion.greaterThan ⟨2, 0, 0, "", "", ""⟩ ⟨2, 0, 0, "", "", ""⟩ = false ∧
    SemVersion.greaterThan ⟨2, 0, 0, "", "", ""⟩ ⟨2, 0, 0, "rc1", "", ""⟩ = true := by
  decide

/-- Unfolding: a draft- or prerelease-flagged head is skipped. -/
theorem scanReleases_cons_flagged (r : Release) (rest : List Release)
    (h : (r.draft || r.prerelease) = true) :
    scanReleases (r :: rest) = scanReleases rest := by
  simp [scanReleases, h]

/-- Unfolding: an unflagged head whose tag fails to parse is skipped and
its failure logged. -/
theorem scanReleases_cons_badtag (r : Release) (rest : List Release) (e : String)
    (hflag : (r.draft || r.prerelease) = false)
    (he : newVersion r.tagName = .error e) :
    scanReleases (r :: rest) =
      ((scanReleases rest).1,
        ("failed to parse " ++ r.tagName) :: (scanReleases rest).2) := by
  simp [scanReleases, hflag, he]

/-- Unfolding: an unflagged head whose tag parses to a version with a
non-empty prerelease component is skipped. -/
theorem scanReleases_cons_semverPre (r : Release) (rest : List Release)
    (w : SemVersion) (hflag : (r.draft || r.prerelease) = false)
    (hok : newVersion r.tagName = .ok w) (hpre : w.pre ≠ "") :
    scanReleases (r :: rest) = scanReleases rest := by
  simp [scanReleases, hflag, hok, hpre]

/-- Unfolding: an unflagged head parsing to a version with empty
prerelease is returned at once. -/
theorem scanReleases_cons_stable (r : Release) (rest : List Release)
    (w : SemVersion) (hflag : (r.draft || r.prerelease) = false)
    (hok : newVersion r.tagName = .ok w) (hpre : w.pre = "") :
    scanReleases (r :: rest) = (some w, []) := by
  simp [scanReleases, hflag, hok, hpre]

/-- Unfolding: on a 200 upstream status with a decodable body, `findLatest`
returns the scan result with a `nil` error. -/
theorem findLatest_ok (rels : List Release) :
    findLatest (.ok ⟨200, .ok rels⟩) =
      (((scanReleases rels).1, none), (scanReleases rels).2) := by
  simp [findLatest, findReleases, errorsWrap]


/-- C1: the spec claims that for every upstream response with a non-200
status, `findReleases` returns a non-nil error wrapping the cause and the
probe terminates with a client-facing error.  The code instead calls
`errors.Wrap` on the `nil` error of the successful `Do`, and
`errors.Wrap(nil, msg)` is `nil`: on a 404 upstream status `findReleases`
returns no error and an empty list, `findLatest` reports no latest version
and no error, and the probe answers 200 with the gauge set to 1. -/
theorem c1_non200_returns_no_error :
    findReleases (.ok ⟨404, .ok [⟨"v9.9.9", false, false, 0⟩]⟩) = ([], none) ∧
    (findLatest (.ok ⟨404, .ok [⟨"v9.9.9", false, false, 0⟩]⟩)).1 = (none, none) ∧
    (probeHandler "foo/bar" "1.2.3"
        (.ok ⟨404, .ok [⟨"v9.9.9", false, false, 0⟩]⟩) 0 ⟨0, 0, 0⟩).resp.status = 200 ∧
    (probeHandler "foo/bar" "1.2.3"
        (.ok ⟨404, .ok [⟨"v9.9.9", false, false, 0⟩]⟩) 0 ⟨0, 0, 0⟩).metrics.upToDate = 1 := by
  decide

/-- C3: whenever the scan loop of `findLatest` returns a latest stable
version, that version originates from a release of the list that is
neither draft- nor prerelease-flagged; a flagged release is never
selected, regardless of its position. -/
theorem c3_flagged_never_selected (rels : List Release) (v : SemVersion)
    (h : (scanReleases rels).1 = some v) :
    ∃ r, r ∈ rels ∧ r.draft = false ∧ r.prerelease = false ∧
      newVersion r.tagName = .ok v := by
  induction rels with
  | nil => simp [scanReleases] at h
  | cons r rest ih =>
    by_cases hflag : (r.draft || r.prerelease) = true
    · rw [scanReleases_cons_flagged r rest hflag] at h
      obtain ⟨r', hmem, h1, h2, h3⟩ := ih h
      exact ⟨r', List.mem_cons_of_mem _ hmem, h1, h2, h3⟩
    · rw [Bool.not_eq_true] at hflag
      cases hnv : newVersion r.tagName with
      | error e =>
        rw [scanReleases_cons_badtag r rest e hflag hnv] at h
        obtain ⟨r', hmem, h1, h2, h3⟩ := ih h
        exact ⟨r', List.mem_cons_of_mem _ hmem, h1, h2, h3⟩
      | ok w =>
        by_cases hpre : w.pre = ""
        · rw [scanReleases_cons_stable r rest w hflag hnv hpre] at h
          rw [Bool.or_eq_false_iff] at hflag
          cases h
          exact ⟨r, List.mem_cons_self r rest, hflag.1, hflag.2, hnv⟩
        · rw [scanReleases_cons_semverPre r rest w hflag hnv hpre] at h
          obtain ⟨r', hmem, h1, h2, h3⟩ := ih h
          exact ⟨r', List.mem_cons_of_mem _ hmem, h1, h2, h3⟩

/-- Witness for C3 at a concrete list: the selected version 1.2.3 comes
from the single unflagged release. -/
theorem c3_witness :
    ∃ r, r ∈ [(⟨"v1.2.3", false, false, 0⟩ : Release)] ∧ r.draft = false ∧
      r.prerelease = false ∧ newVersion r.tagName = .ok ⟨1, 2, 3, "", "", "v1.2.3"⟩ :=
  c3_flagged_never_selected [⟨"v1.2.3", false, false, 0⟩] ⟨1, 2, 3, "", "", "v1.2.3"⟩
    (by decide)

/-- C4: a version returned by the scan loop of `findLatest` always has an
empty prerelease component, and a release whose tag parses to a version
with a non-empty prerelease component is skipped (scanning continues on
the rest), even when not flagged prerelease upstream. -/
theorem c4_semver_prerelease_never_selected :
    (∀ rels v, (scanReleases rels).1 = some v → v.pre = "") ∧
    (∀ (r : Release) rest w, (r.draft || r.prerelease) = false →
      newVersion r.tagName = .ok w → w.pre ≠ "" →
      scanReleases (r :: rest) = scanReleases rest) := by
  constructor
  · intro rels
    induction rels with
    | nil => intro v h; simp [scanReleases] at h
    | cons r rest ih =>
      intro v h
      by_cases hflag : (r.draft || r.prerelease) = true
      · rw [scanReleases_cons_flagged r rest hflag] at h
        exact ih v h
      · rw [Bool.not_eq_true] at hflag
        cases hnv : newVersion r.tagName with
        | error e =>
          rw [scanReleases_cons_badtag r rest e hflag hnv] at h
          exact ih v h
        | ok w =>
          by_cases hpre : w.pre = ""
          · rw [scanReleases_cons_stable r rest w hflag hnv hpre] at h
            cases h
            exact hpre
          · rw [scanReleases_cons_semverPre r rest w hflag hnv hpre] at h
            exact ih v h
  · intro r rest w hflag hok hpre
    exact scanReleases_cons_semverPre r rest w hflag hok hpre

/-- Witness for C4: the unflagged release tagged 2.0.0-beta.1 is skipped. -/
theorem c4_witness :
    scanReleases [(⟨"2.0.0-beta.1", false, false, 0⟩ : Release)] = scanReleases [] :=
  c4_semver_prerelease_never_selected.2 ⟨"2.0.0-beta.1", false, false, 0⟩ []
    ⟨2, 0, 0, "beta.1", "", "2.0.0-beta.1"⟩ (by decide) (by decide) (by decide)

/-- C10: `findLatest` returns the first stable release in list order, not
the maximum stable version: on the list [1.0.0, 2.0.0] the later element
2.0.0 is a stable version strictly greater than the earlier stable element
1.0.0, yet the earlier version 1.0.0 is returned. -/
theorem c10_first_in_order_not_max :
    (findLatest (.ok ⟨200, .ok [⟨"1.0.0", false, false, 0⟩,
        ⟨"2.0.0", false, false, 0⟩]⟩)).1 = (some ⟨1, 0, 0, "", "", "1.0.0"⟩, none) ∧
    newVersion "2.0.0" = .ok ⟨2, 0, 0, "", "", "2.0.0"⟩ ∧
    SemVersion.compare ⟨2, 0, 0, "", "", "2.0.0"⟩ ⟨1, 0, 0, "", "", "1.0.0"⟩ > 0 := by
  decide

/-- C2: whenever a latest stable version `v` was found and the supplied
tag parsed to `c`, the `up_to_date` gauge is set to 0 when `v` is strictly
greater than `c` and to 1 otherwise; in particular equality (comparison 0)
reports 1. -/
theorem c2_up_to_date_gauge (repo tag : String)
    (upstream : Except String HttpResponse) (elapsed : Rat) (m : Metrics)
    (v c : SemVersion) (hrepo : repo ≠ "") (htag : tag ≠ "")
    (hc : newVersion tag = .ok c)
    (hv : (findLatest upstream).1 = (some v, none)) :
    (SemVersion.compare v c > 0 →
      (probeHandler repo tag upstream elapsed m).metrics.upToDate = 0) ∧
    (¬ SemVersion.compare v c > 0 →
      (probeHandler repo tag upstream elapsed m).metrics.upToDate = 1) ∧
    (SemVersion.compare v c = 0 →
      (probeHandler repo tag upstream elapsed m).metrics.upToDate = 1) := by
  have hout : (probeHandler repo tag upstream elapsed m).metrics.upToDate =
      boolToFloat (! SemVersion.greaterThan v c) := by
    simp [probeHandler, hrepo, htag, hc, hv]
  refine ⟨fun hgt => ?_, fun hle => ?_, fun heq => ?_⟩
  · rw [hout]
    simp [SemVersion.greaterThan, boolToFloat, hgt]
  · rw [hout]
    simp [SemVersion.greaterThan, boolToFloat, hle]
  · rw [hout]
    simp [SemVersion.greaterThan, boolToFloat, heq]

/-- Witness for C2: latest 2.1.0 against current 2.0.0 sets the gauge
to 0. -/
theorem c2_witness :
    (probeHandler "foo/bar" "v2.0.0"
      (.ok ⟨200, .ok [⟨"v2.1.0", false, false, 0⟩]⟩) 0 ⟨0, 0, 0⟩).metrics.upToDate = 0 :=
  (c2_up_to_date_gauge "foo/bar" "v2.0.0"
      (.ok ⟨200, .ok [⟨"v2.1.0", false, false, 0⟩]⟩) 0 ⟨0, 0, 0⟩
      ⟨2, 1, 0, "", "", "v2.1.0"⟩ ⟨2, 0, 0, "", "", "v2.0.0"⟩
      (by decide) (by decide) (by decide) (by decide)).1 (by decide)

/-- C5: when the upstream body decodes to a list with no qualifying stable
release (the empty list included), `findLatest` returns an empty result
with a `nil` error, and a probe with non-empty repo and a parsing tag
answers 200 with the `up_to_date` gauge set to 1. -/
theorem c5_no_stable_defaults_up_to_date (repo tag : String)
    (rels : List Release) (elapsed : Rat) (m : Metrics) (c : SemVersion)
    (hrepo : repo ≠ "") (htag : tag ≠ "") (hc : newVersion tag = .ok c)
    (hscan : (scanReleases rels).1 = none) :
    (findLatest (.ok ⟨200, .ok rels⟩)).1 = (none, none) ∧
    (probeHandler repo tag (.ok ⟨200, .ok rels⟩) elapsed m).metrics.upToDate = 1 ∧
    (probeHandler repo tag (.ok ⟨200, .ok rels⟩) elapsed m).resp.status = 200 := by
  have hfl : (findLatest (.ok ⟨200, .ok rels⟩)).1 = (none, none) := by
    rw [findLatest_ok rels, hscan]
  refine ⟨hfl, ?_, ?_⟩ <;> simp [probeHandler, hrepo, htag, hc, hfl]

/-- Witness for C5: a prerelease-only release list with current tag 1.0.0
reports up to date. -/
theorem c5_witness :
    (probeHandler "acme/widget" "v1.0.0"
      (.ok ⟨200, .ok [⟨"v3.0.0-rc1", false, true, 0⟩]⟩) 0 ⟨0, 0, 0⟩).metrics.upToDate = 1 :=
  (c5_no_stable_defaults_up_to_date "acme/widget" "v1.0.0"
      [⟨"v3.0.0-rc1", false, true, 0⟩] 0 ⟨0, 0, 0⟩ ⟨1, 0, 0, "", "", "v1.0.0"⟩
      (by decide) (by decide) (by decide) (by decide)).2.1

/-- C6: an unflagged release whose tag fails semantic-version parsing is
skipped with its failure logged, and scanning continues on the remaining
releases; with a successful fetch the parse failure is never surfaced as a
caller-facing error of `findLatest`, and a probe whose fetch succeeded
leaves the probe-error counter unchanged. -/
theorem c6_parse_failure_skipped_and_logged (r : Release) (rest : List Release)
    (e : String) (hflag : (r.draft || r.prerelease) = false)
    (he : newVersion r.tagName = .error e) :
    scanReleases (r :: rest) =
      ((scanReleases rest).1,
        ("failed to parse " ++ r.tagName) :: (scanReleases rest).2) ∧
    (∀ rels : List Release, (findLatest (.ok ⟨200, .ok rels⟩)).1.2 = none) ∧
    (∀ (repo tag : String) (c : SemVersion) (rels : List Release)
        (elapsed : Rat) (m : Metrics), repo ≠ "" → tag ≠ "" →
      newVersion tag = .ok c →
      (probeHandler repo tag (.ok ⟨200, .ok rels⟩) elapsed m).metrics.probeErrors =
        m.probeErrors) := by
  refine ⟨scanReleases_cons_badtag r rest e hflag he, ?_, ?_⟩
  · intro rels
    rw [findLatest_ok rels]
  · intro repo tag c rels elapsed m hrepo htag hc
    have hfl : (findLatest (.ok ⟨200, .ok rels⟩)).1 =
        ((scanReleases rels).1, none) := by
      rw [findLatest_ok rels]
    cases hsc : (scanReleases rels).1 with
    | none =>
      rw [hsc] at hfl
      simp [probeHandler, hrepo, htag, hc, hfl]
    | some w =>
      rw [hsc] at hfl
      simp [probeHandler, hrepo, htag, hc, hfl]

/-- Witness for C6: the unparseable tag `not-a-version` is skipped and the
failure logged, scanning the (empty) remainder. -/
theorem c6_witness :
    scanReleases [(⟨"not-a-version", false, false, 0⟩ : Release)] =
      (none, ["failed to parse not-a-version"]) := by
  have h := c6_parse_failure_skipped_and_logged ⟨"not-a-version", false, false, 0⟩ []
    "Invalid Semantic Version" (by decide) (by decide)
  simpa [scanReleases] using h.1

/-- C7 counterexample: the claim says the probe-duration gauge is updated
on every request regardless of outcome, but on a request missing the
`repo` parameter the handler returns before reaching the duration update:
with elapsed time 5 the duration gauge is not written and keeps its prior
value 0. -/
theorem c7_counterexample :
    (probeHandler "" "" (.ok ⟨200, .ok []⟩) 5 ⟨0, 0, 0⟩).durationSet = false ∧
    (probeHandler "" "" (.ok ⟨200, .ok []⟩) 5 ⟨0, 0, 0⟩).metrics.probeDuration = 0 := by
  decide

/-- C7 amended: the probe-duration gauge is written (with the elapsed
seconds) exactly on requests that complete successfully (status 200), and
the probe-error counter is incremented exactly once on each request that
terminates in a client-facing error (status 400) and never on a successful
request — in particular never for per-release skipped-tag failures. -/
theorem c7_duration_and_error_counter (repo tag : String)
    (upstream : Except String HttpResponse) (elapsed : Rat) (m : Metrics) :
    ((probeHandler repo tag upstream elapsed m).resp.status = 200 →
      (probeHandler repo tag upstream elapsed m).durationSet = true ∧
      (probeHandler repo tag upstream elapsed m).metrics.probeDuration = elapsed ∧
      (probeHandler repo tag upstream elapsed m).metrics.probeErrors = m.probeErrors) ∧
    ((probeHandler repo tag upstream elapsed m).resp.status ≠ 200 →
      (probeHandler repo tag upstream elapsed m).durationSet = false ∧
      (probeHandler repo tag upstream elapsed m).metrics.probeDuration = m.probeDuration ∧
      (probeHandler repo tag upstream elapsed m).metrics.probeErrors = m.probeErrors + 1) := by
  by_cases h1 : repo = ""
  · simp [probeHandler, h1]
  · by_cases h2 : tag = ""
    · simp [probeHandler, h1, h2]
    · cases hnv : newVersion tag with
      | error e => simp [probeHandler, h1, h2, hnv]
      | ok c =>
        rcases hfl : (findLatest upstream).1 with ⟨vo, eo⟩
        cases eo with
        | some e2 => simp [probeHandler, h1, h2, hnv, hfl]
        | none => simp [probeHandler, h1, h2, hnv, hfl]

/-- Witness for C7 (amended): a successful probe with elapsed time 7
writes 7 into the duration gauge. -/
theorem c7_witness :
    (probeHandler "a/b" "1.0.0" (.ok ⟨200, .ok []⟩) 7 ⟨0, 0, 0⟩).metrics.probeDuration = 7 :=
  ((c7_duration_and_error_counter "a/b" "1.0.0" (.ok ⟨200, .ok []⟩) 7 ⟨0, 0, 0⟩).1
    (by decide)).2.1

/-- C8 counterexample: the claim quantifies over every request whose tag
is present but fails semantic-version parsing, yet when `repo` is missing
the repo check answers first: with tag `not-a-version` (which does fail
parsing) the body is `repo parameter is missing`, not the parser's error
message. -/
theorem c8_counterexample :
    newVersion "not-a-version" = .error "Invalid Semantic Version" ∧
    (probeHandler "" "not-a-version" (.ok ⟨200, .ok []⟩) 0 ⟨0, 0, 0⟩).resp.body =
      .errorText "repo parameter is missing" ∧
    (probeHandler "" "not-a-version" (.ok ⟨200, .ok []⟩) 0 ⟨0, 0, 0⟩).resp.body ≠
      .errorText "Invalid Semantic Version" := by
  decide

/-- C8 amended: when the repo parameter is present and the tag is present
but fails semantic-version parsing, the response is HTTP 400 carrying the
parser's error message, the outbound release fetch is not issued, and the
outcome does not depend on the upstream exchange at all. -/
theorem c8_malformed_tag_no_fetch (repo tag e : String)
    (u1 u2 : Except String HttpResponse) (elapsed : Rat) (m : Metrics)
    (hrepo : repo ≠ "") (htag : tag ≠ "") (he : newVersion tag = .error e) :
    (probeHandler repo tag u1 elapsed m).resp = ⟨400, .errorText e⟩ ∧
    (probeHandler repo tag u1 elapsed m).fetchInvoked = false ∧
    probeHandler repo tag u1 elapsed m = probeHandler repo tag u2 elapsed m := by
  refine ⟨?_, ?_, ?_⟩ <;> simp [probeHandler, hrepo, htag, he]

/-- Witness for C8: tag `not-a-version` yields 400 with the
`Invalid Semantic Version` parser message. -/
theorem c8_witness :
    (probeHandler "foo/bar" "not-a-version" (.error "network down") 0
      ⟨0, 0, 0⟩).resp = ⟨400, .errorText "Invalid Semantic Version"⟩ :=
  (c8_malformed_tag_no_fetch "foo/bar" "not-a-version" "Invalid Semantic Version"
      (.error "network down") (.ok ⟨200, .ok []⟩) 0 ⟨0, 0, 0⟩
      (by decide) (by decide) (by decide)).1

/-- C9 counterexample: the claim quantifies over every request missing the
`tag` parameter, but when `repo` is missing as well the handler answers
with the repo message, not the tag message. -/
theorem c9_counterexample :
    (probeHandler "" "" (.ok ⟨200, .ok []⟩) 0 ⟨0, 0, 0⟩).resp.body =
      .errorText "repo parameter is missing" ∧
    (probeHandler "" "" (.ok ⟨200, .ok []⟩) 0 ⟨0, 0, 0⟩).resp.body ≠
      .errorText "tag parameter is missing" := by
  decide

/-- C9 amended: a request missing `repo` answers HTTP 400 with body
`repo parameter is missing` and increments the error counter by 1; a
request with `repo` present but `tag` missing answers HTTP 400 with body
`tag parameter is missing` (also incrementing the error counter by 1). -/
theorem c9_missing_parameters (repo tag : String)
    (upstream : Except String HttpResponse) (elapsed : Rat) (m : Metrics) :
    (repo = "" →
      (probeHandler repo tag upstream elapsed m).resp =
        ⟨400, .errorText "repo parameter is missing"⟩ ∧
      (probeHandler repo tag upstream elapsed m).metrics.probeErrors =
        m.probeErrors + 1) ∧
    (repo ≠ "" → tag = "" →
      (probeHandler repo tag upstream elapsed m).resp =
        ⟨400, .errorText "tag parameter is missing"⟩ ∧
      (probeHandler repo tag upstream elapsed m).metrics.probeErrors =
        m.probeErrors + 1) := by
  constructor
  · intro h1
    simp [probeHandler, h1]
  · intro h1 h2
    simp [probeHandler, h1, h2]

/-- Witness for C9 (amended): repo present, tag missing. -/
theorem c9_witness :
    (probeHandler "x/y" "" (.ok ⟨200, .ok []⟩) 0 ⟨0, 0, 0⟩).resp =
      ⟨400, .errorText "tag parameter is missing"⟩ :=
  ((c9_missing_parameters "x/y" "" (.ok ⟨200, .ok []⟩) 0 ⟨0, 0, 0⟩).2
    (by decide) rfl).1
